import Mathlib

/-!
Shallow embedding of the case-evaluation pipeline of `src/app.py`
(viktor-demo). The core logic lives in the `plotly_and_data_view`
method (lines 356-414): a norm-to-threshold lookup, a mass computation
that is either a local formula (`volume * density`) or a delegated
spreadsheet-service call (`calculate_mass_from_spreadsheet`, lines
43-56), a unity check `mass / max_mass * 100`, a status/color
classification, and aggregation of the per-case results plus a
parallel `(unity_check, color)` series for the chart, with the
empty-input check `if graph_data: ... else: raise UserException`.

Python floats are modelled as `ℚ`; Python exceptions as an `Except`
error monad. The external spreadsheet service is opaque in the source
(the SDK call `sheet.evaluate`), so the delegated strategy carries it
as an arbitrary function `ℚ → ℚ → Except String ℚ` whose `error`
outcome stands for the service raising.
-/

namespace ViktorDemo

/-- Constant `NORM_A_MAX = 500` (src/app.py line 26). -/
def NORM_A_MAX : ℚ := 500

/-- Constant `NORM_B_MAX = 750` (src/app.py line 27). -/
def NORM_B_MAX : ℚ := 750

/-- Constant `NORM_C_MAX = 1000` (src/app.py line 28). -/
def NORM_C_MAX : ℚ := 1000

/-- One row of the `calculate.cases` dynamic array (src/app.py lines
172-182): a volume, a density and a norm identifier. The norm is an
`OptionField` whose value is the string `"A"`, `"B"` or `"C"`; it is
kept as a `String` here so that the defensive unrecognized-norm branch
of the source remains representable. -/
structure Case where
  volume : ℚ
  density : ℚ
  norm : String
deriving DecidableEq, Repr

/-- The three `DataStatus` values used by the view (src/app.py lines
376-384). -/
inductive DataStatus where
  | success
  | warning
  | error
deriving DecidableEq, Repr

/-- The ways the evaluation in `plotly_and_data_view` can raise:
`userError` models `raise UserException msg` (line 406), `notImplemented`
models the defensive `raise NotImplementedError` for an unrecognized
norm (line 365), and `calcService` models an exception escaping the
spreadsheet service call (lines 54-56), carrying the service's error
payload unmodified. -/
inductive EvalError where
  | userError (msg : String)
  | notImplemented
  | calcService (msg : String)
deriving DecidableEq, Repr

/-- The batch-wide calculation strategy: the boolean
`params.calculate.spreadsheet` (src/app.py lines 190-195, 367).
`localFormula` is `False` (plain Python `volume * density`);
`delegated f` is `True`, carrying the external spreadsheet service as
an opaque function. -/
inductive Strategy where
  | localFormula
  | delegated (f : ℚ → ℚ → Except String ℚ)

/-- Mass computation (src/app.py lines 367-372): the local branch is
`mass = case.volume * case.density`; the delegated branch calls
`calculate_mass_from_spreadsheet`, whose failure propagates as a
`calcService` error. -/
def computeMass (strategy : Strategy) (volume density : ℚ) : Except EvalError ℚ :=
  match strategy with
  | .localFormula => .ok (volume * density)
  | .delegated f =>
    match f volume density with
    | .ok mass => .ok mass
    | .error e => .error (.calcService e)

/-- Norm-to-threshold lookup (src/app.py lines 358-365): the
`if/elif/elif/else` chain on `case.norm`, with the defensive
`raise NotImplementedError` branch for anything outside
`"A"`, `"B"`, `"C"`. -/
def maxMassFor (norm : String) : Except EvalError ℚ :=
  if norm = "A" then .ok NORM_A_MAX
  else if norm = "B" then .ok NORM_B_MAX
  else if norm = "C" then .ok NORM_C_MAX
  else .error .notImplemented

/-- Status classification (src/app.py lines 376-384): the
`if unity_check > 100 / elif unity_check > 80 / else` chain, first
match wins, applied to the raw (unrounded) unity check. -/
def statusOf (unityCheck : ℚ) : DataStatus :=
  if unityCheck > 100 then .error
  else if unityCheck > 80 then .warning
  else .success

/-- Chart color token assigned alongside the status in the same
branches (src/app.py lines 376-384): Error is `"red"`, Warning is
`"orange"`, Success is `"green"`. -/
def colorOf (status : DataStatus) : String :=
  match status with
  | .error => "red"
  | .warning => "orange"
  | .success => "green"

/-- Per-case derived values: the mass, the unity check
`mass / max_mass * 100` and the classified status (src/app.py lines
374-399). -/
structure CaseResult where
  mass : ℚ
  unityCheck : ℚ
  status : DataStatus
deriving DecidableEq, Repr

/-- One loop iteration of `plotly_and_data_view` (src/app.py lines
357-399): look the norm threshold up, compute the mass with the
selected strategy, form `unity_check = mass / max_mass * 100` and
classify it. Any raise inside the iteration aborts the whole view. -/
def evalCase (strategy : Strategy) (c : Case) : Except EvalError CaseResult :=
  match maxMassFor c.norm with
  | .error e => .error e
  | .ok maxMass =>
    match computeMass strategy c.volume c.density with
    | .error e => .error e
    | .ok mass =>
      .ok ⟨mass, mass / maxMass * 100, statusOf (mass / maxMass * 100)⟩

/-- The `for i, case in enumerate(params.calculate.cases, 1)` loop
(src/app.py lines 357-399), processing the cases in input order; an
exception raised while processing a case propagates before any later
case is touched. -/
def evalCases (strategy : Strategy) : List Case → Except EvalError (List CaseResult)
  | [] => .ok []
  | c :: cs =>
    match evalCase strategy c with
    | .error e => .error e
    | .ok r =>
      match evalCases strategy cs with
      | .error e => .error e
      | .ok rs => .ok (r :: rs)

/-- The aggregated output of `plotly_and_data_view` (src/app.py lines
386-414): the per-case results in input order (`data_items`) and the
parallel `graph_data` series of `(unity_check, color)` pairs consumed
by the Plotly bar chart. -/
structure BatchResult where
  results : List CaseResult
  graphData : List (ℚ × String)
deriving DecidableEq, Repr

/-- The whole evaluation of `plotly_and_data_view` (src/app.py lines
356-414): run the per-case loop, then `if graph_data:` build the
figure, `else: raise UserException("Add at least 1 case.")`
(lines 403-406). Each `graph_data` entry is the `(unity_check, color)`
pair appended at line 386, where `color` was set in the same branch as
the status. -/
def evaluateAll (strategy : Strategy) (cases : List Case) : Except EvalError BatchResult :=
  match evalCases strategy cases with
  | .error e => .error e
  | .ok results =>
    let graphData := results.map fun r => (r.unityCheck, colorOf r.status)
    if graphData.isEmpty then
      .error (.userError "Add at least 1 case.")
    else
      .ok ⟨results, graphData⟩

/-!
Shared helper lemmas about the loop `evalCases` and the wrapper
`evaluateAll`.
-/

/-- A successful loop yields one result per input case. -/
theorem evalCases_length {s : Strategy} :
    ∀ {cs : List Case} {rs : List CaseResult},
    evalCases s cs = .ok rs → rs.length = cs.length := by
  intro cs
  induction cs with
  | nil =>
    intro rs h
    simp only [evalCases, Except.ok.injEq] at h
    simp [← h]
  | cons c cs ih =>
    intro rs h
    simp only [evalCases] at h
    cases hc : evalCase s c with
    | error e => rw [hc] at h; exact absurd h (by simp)
    | ok r =>
      rw [hc] at h
      cases ht : evalCases s cs with
      | error e => rw [ht] at h; exact absurd h (by simp)
      | ok rs2 =>
        rw [ht] at h
        simp only [Except.ok.injEq] at h
        rw [← h]
        simp [ih ht]

/-- A successful loop computes, at every index, exactly the evaluation
of the case at that index. -/
theorem evalCases_get {s : Strategy} :
    ∀ {cs : List Case} {rs : List CaseResult},
    evalCases s cs = .ok rs →
    ∀ (i : ℕ) (h1 : i < cs.length) (h2 : i < rs.length),
    evalCase s cs[i] = .ok rs[i] := by
  intro cs
  induction cs with
  | nil =>
    intro rs h i h1 h2
    exact absurd h1 (by simp)
  | cons c cs ih =>
    intro rs h i h1 h2
    simp only [evalCases] at h
    cases hc : evalCase s c with
    | error e => rw [hc] at h; exact absurd h (by simp)
    | ok r =>
      rw [hc] at h
      cases ht : evalCases s cs with
      | error e => rw [ht] at h; exact absurd h (by simp)
      | ok rs2 =>
        rw [ht] at h
        simp only [Except.ok.injEq] at h
        subst h
        cases i with
        | zero => simpa using hc
        | succ j =>
          have h1' : j < cs.length := by simpa using h1
          have h2' : j < rs2.length := by simpa using h2
          simpa using ih ht j h1' h2'

/-- A successful `evaluateAll` run decomposes into a successful loop
producing the result list, the graph series being mapped from it. -/
theorem evaluateAll_ok_parts {s : Strategy} {cs : List Case} {br : BatchResult}
    (h : evaluateAll s cs = .ok br) :
    ∃ rs, evalCases s cs = .ok rs ∧
      br = ⟨rs, rs.map fun r => (r.unityCheck, colorOf r.status)⟩ := by
  unfold evaluateAll at h
  cases hec : evalCases s cs with
  | error e => rw [hec] at h; exact absurd h (by simp)
  | ok rs =>
    rw [hec] at h
    by_cases hne : (rs.map fun r => (r.unityCheck, colorOf r.status)).isEmpty
    · simp only [if_pos hne] at h; exact absurd h (by simp)
    · simp only [if_neg hne, Except.ok.injEq] at h
      exact ⟨rs, rfl, h.symm⟩

/-- A valid norm string has a threshold, and that threshold is one of
the three positive constants. -/
theorem maxMassFor_of_valid {norm : String}
    (h : norm = "A" ∨ norm = "B" ∨ norm = "C") :
    ∃ t : ℚ, maxMassFor norm = .ok t ∧ 0 < t ∧
      (t = NORM_A_MAX ∨ t = NORM_B_MAX ∨ t = NORM_C_MAX) := by
  rcases h with h | h | h <;> subst h
  · exact ⟨NORM_A_MAX, rfl, by norm_num [NORM_A_MAX], Or.inl rfl⟩
  · exact ⟨NORM_B_MAX, by simp [maxMassFor], by norm_num [NORM_B_MAX],
      Or.inr (Or.inl rfl)⟩
  · exact ⟨NORM_C_MAX, by simp [maxMassFor], by norm_num [NORM_C_MAX],
      Or.inr (Or.inr rfl)⟩

/-- When every norm in the batch is recognized and the delegated
service fails on at least one case, the loop stops with the service's
error payload of the first failing case, wrapped as `calcService`. -/
theorem evalCases_stubFail (f : ℚ → ℚ → Except String ℚ) :
    ∀ cs : List Case,
    (∀ c ∈ cs, c.norm = "A" ∨ c.norm = "B" ∨ c.norm = "C") →
    (∃ c ∈ cs, ∃ e, f c.volume c.density = .error e) →
    ∃ e, (∃ c ∈ cs, f c.volume c.density = .error e) ∧
      evalCases (.delegated f) cs = .error (.calcService e) := by
  intro cs
  induction cs with
  | nil =>
    intro _ hfail
    simp at hfail
  | cons c cs ih =>
    intro hnorm hfail
    obtain ⟨t, ht, _, _⟩ := maxMassFor_of_valid (hnorm c (by simp))
    cases hf : f c.volume c.density with
    | error e =>
      refine ⟨e, ⟨c, by simp, hf⟩, ?_⟩
      simp [evalCases, evalCase, ht, computeMass, hf]
    | ok m =>
      have hfail2 : ∃ c2 ∈ cs, ∃ e, f c2.volume c2.density = .error e := by
        obtain ⟨c2, hmem, e, he⟩ := hfail
        rcases List.mem_cons.mp hmem with rfl | hmem2
        · rw [hf] at he; exact absurd he (by simp)
        · exact ⟨c2, hmem2, e, he⟩
      obtain ⟨e, ⟨c2, hmem2, he⟩, hecs⟩ :=
        ih (fun c2 h2 => hnorm c2 (List.mem_cons_of_mem _ h2)) hfail2
      refine ⟨e, ⟨c2, List.mem_cons_of_mem _ hmem2, he⟩, ?_⟩
      simp [evalCases, evalCase, ht, computeMass, hf, hecs]

/-!
Claim theorems.
-/

/-- C1: for every raw unityCheck value the assigned status is Error when
it exceeds 100, Warning when it exceeds 80 but is at most 100, and
Success when it is at most 80, with the branches tested in that order
(first match wins) and the matching chart color token red, orange and
green respectively; in particular exactly 100 yields Warning and
exactly 80 yields Success, the comparisons being applied to the raw
(unrounded) value. -/
theorem status_classification :
    (∀ u : ℚ,
      (100 < u → statusOf u = .error ∧ colorOf (statusOf u) = "red") ∧
      (80 < u → u ≤ 100 → statusOf u = .warning ∧ colorOf (statusOf u) = "orange") ∧
      (u ≤ 80 → statusOf u = .success ∧ colorOf (statusOf u) = "green")) ∧
    statusOf 100 = .warning ∧ statusOf 80 = .success := by
  refine ⟨fun u => ⟨fun h => ?_, fun h1 h2 => ?_, fun h => ?_⟩, by decide, by decide⟩
  · simp [statusOf, h, colorOf]
  · simp [statusOf, h1, not_lt.mpr h2, colorOf]
  · have h100 : u ≤ 100 := le_trans h (by norm_num)
    simp [statusOf, not_lt.mpr h, not_lt.mpr h100, colorOf]

/-- Witness for C1: at the concrete value 101 the classification is
Error with color red. -/
theorem status_classification_witness :
    statusOf 101 = DataStatus.error ∧ colorOf (statusOf 101) = "red" :=
  (status_classification.1 101).1 (by norm_num)

/-- C2: for every strategy (even one whose delegated service always
fails — no per-case work consults it), evaluating the empty case list
fails with the user-facing error "Add at least 1 case." and no batch
result is produced. -/
theorem evaluateAll_empty (strategy : Strategy) :
    evaluateAll strategy [] = .error (.userError "Add at least 1 case.") := rfl

/-- C3: the threshold lookup returns the fixed constants 500, 750 and
1000 for the norms A, B and C respectively. -/
theorem maxMassFor_constants :
    maxMassFor "A" = .ok 500 ∧ maxMassFor "B" = .ok 750 ∧
    maxMassFor "C" = .ok 1000 :=
  ⟨rfl, rfl, rfl⟩

/-- C4: for all nonnegative volume and density the local strategy
computes mass exactly `v * d`, returning successfully (no failure
mode). -/
theorem computeMass_localFormula (v d : ℚ) (hv : 0 ≤ v) (hd : 0 ≤ d) :
    computeMass .localFormula v d = .ok (v * d) := rfl

/-- Witness for C4: at volume 3 and density 5 the local strategy yields
mass `3 * 5`. -/
theorem computeMass_localFormula_witness :
    0 ≤ (3 : ℚ) ∧ 0 ≤ (5 : ℚ) ∧
    computeMass .localFormula 3 5 = .ok (3 * 5) :=
  ⟨by norm_num, by norm_num,
   computeMass_localFormula 3 5 (by norm_num) (by norm_num)⟩

/-- C5: whenever the norm lookup yields threshold `t` and the selected
strategy yields mass `m`, the evaluator produces exactly
`unityCheck = m / t * 100` with its classification; and the concrete
case {volume = 3/10, density = 1000, norm = A} under the local strategy
yields mass 300, threshold 500, unityCheck 60, status Success and color
green. -/
theorem evalCase_unityCheck :
    (∀ (s : Strategy) (c : Case) (t m : ℚ),
      maxMassFor c.norm = .ok t →
      computeMass s c.volume c.density = .ok m →
      evalCase s c = .ok ⟨m, m / t * 100, statusOf (m / t * 100)⟩) ∧
    maxMassFor "A" = .ok 500 ∧
    evalCase .localFormula ⟨3/10, 1000, "A"⟩ = .ok ⟨300, 60, .success⟩ ∧
    colorOf .success = "green" := by
  refine ⟨fun s c t m h1 h2 => ?_, rfl, ?_, rfl⟩
  · simp [evalCase, h1, h2]
  · norm_num [evalCase, maxMassFor, computeMass, statusOf, NORM_A_MAX]

/-- Witness for C5: the general part applied to the concrete case
{volume = 1, density = 900, norm = B} with threshold 750 and mass 900. -/
theorem evalCase_unityCheck_witness :
    evalCase .localFormula ⟨1, 900, "B"⟩ =
      .ok ⟨900, 900 / 750 * 100, statusOf (900 / 750 * 100)⟩ :=
  evalCase_unityCheck.1 .localFormula ⟨1, 900, "B"⟩ 750 900
    rfl (by norm_num [computeMass])

/-- C6: a successful evaluation of N input cases yields exactly N
per-case results in input order (the i-th result is the evaluation of
the i-th input case) and a parallel (unityCheck, color) graph series of
exactly N entries aligned index-for-index with the results. -/
theorem evaluateAll_length_order (s : Strategy) (cases : List Case)
    (br : BatchResult) (h : evaluateAll s cases = .ok br) :
    br.results.length = cases.length ∧
    br.graphData.length = cases.length ∧
    ∀ (i : ℕ) (h1 : i < cases.length) (h2 : i < br.results.length)
      (h3 : i < br.graphData.length),
      evalCase s cases[i] = .ok br.results[i] ∧
      br.graphData[i] = (br.results[i].unityCheck, colorOf br.results[i].status) := by
  obtain ⟨rs, hec, rfl⟩ := evaluateAll_ok_parts h
  have hlen := evalCases_length hec
  refine ⟨hlen, by simpa using hlen, fun i h1 h2 h3 => ⟨evalCases_get hec i h1 h2, ?_⟩⟩
  simp

/-- Witness for C6: the theorem applied to the concrete one-case batch
{volume = 1, density = 100, norm = A} under the local strategy. -/
theorem evaluateAll_length_order_witness :
    (BatchResult.mk [⟨100, 20, .success⟩] [(20, "green")]).results.length =
      ([⟨1, 100, "A"⟩] : List Case).length ∧
    (BatchResult.mk [⟨100, 20, .success⟩] [(20, "green")]).graphData.length =
      ([⟨1, 100, "A"⟩] : List Case).length ∧
    ∀ (i : ℕ) (h1 : i < ([⟨1, 100, "A"⟩] : List Case).length)
      (h2 : i < (BatchResult.mk [⟨100, 20, .success⟩] [(20, "green")]).results.length)
      (h3 : i < (BatchResult.mk [⟨100, 20, .success⟩] [(20, "green")]).graphData.length),
      evalCase .localFormula (([⟨1, 100, "A"⟩] : List Case)[i]) =
        .ok ((BatchResult.mk [⟨100, 20, .success⟩] [(20, "green")]).results[i]) ∧
      (BatchResult.mk [⟨100, 20, .success⟩] [(20, "green")]).graphData[i] =
        (((BatchResult.mk [⟨100, 20, .success⟩] [(20, "green")]).results[i]).unityCheck,
         colorOf ((BatchResult.mk [⟨100, 20, .success⟩] [(20, "green")]).results[i]).status) :=
  evaluateAll_length_order .localFormula [⟨1, 100, "A"⟩]
    ⟨[⟨100, 20, .success⟩], [(20, "green")]⟩
    (by norm_num [evaluateAll, evalCases, evalCase, maxMassFor, computeMass,
      statusOf, colorOf, NORM_A_MAX])

/-- C7: a delegated stub that returns `v * d` for every input makes the
delegated evaluation agree with the local one on every case set — the
whole batch output (per-case mass, unityCheck, status and the graph
series) is identical. -/
theorem delegated_stub_equiv (stub : ℚ → ℚ → Except String ℚ)
    (hstub : ∀ v d, stub v d = .ok (v * d)) (cases : List Case) :
    evaluateAll (.delegated stub) cases = evaluateAll .localFormula cases := by
  have hec : ∀ c, evalCase (.delegated stub) c = evalCase .localFormula c := by
    intro c
    simp [evalCase, computeMass, hstub]
  have hecs : ∀ cs, evalCases (.delegated stub) cs = evalCases .localFormula cs := by
    intro cs
    induction cs with
    | nil => rfl
    | cons c cs ih => simp [evalCases, hec, ih]
  simp [evaluateAll, hecs]

/-- Witness for C7: the stub `fun v d => .ok (v * d)` on the concrete
one-case batch {volume = 1, density = 2, norm = A}. -/
theorem delegated_stub_equiv_witness :
    evaluateAll (.delegated fun v d => .ok (v * d)) [⟨1, 2, "A"⟩] =
      evaluateAll .localFormula [⟨1, 2, "A"⟩] :=
  delegated_stub_equiv (fun v d => .ok (v * d)) (fun _ _ => rfl) [⟨1, 2, "A"⟩]

/-- C8: under the delegated strategy, if the external calculation fails
on some case of a batch whose norms are all recognized, the whole batch
evaluation aborts with a `calcService` error carrying a payload the
service actually produced on a case of the batch, and no batch result
is returned. -/
theorem delegated_failure_aborts (f : ℚ → ℚ → Except String ℚ)
    (cases : List Case)
    (hnorm : ∀ c ∈ cases, c.norm = "A" ∨ c.norm = "B" ∨ c.norm = "C")
    (hfail : ∃ c ∈ cases, ∃ e, f c.volume c.density = .error e) :
    ∃ e, (∃ c ∈ cases, f c.volume c.density = .error e) ∧
      evaluateAll (.delegated f) cases = .error (.calcService e) := by
  obtain ⟨e, hc, hecs⟩ := evalCases_stubFail f cases hnorm hfail
  exact ⟨e, hc, by simp [evaluateAll, hecs]⟩

/-- Witness for C8: a service that is always down, on the concrete
one-case batch {volume = 1, density = 2, norm = A}. -/
theorem delegated_failure_aborts_witness :
    ∃ e, (∃ c ∈ ([⟨1, 2, "A"⟩] : List Case),
        (fun (v d : ℚ) => (Except.error "service unreachable" : Except String ℚ))
          c.volume c.density = .error e) ∧
      evaluateAll (.delegated fun v d => .error "service unreachable")
        [⟨1, 2, "A"⟩] = .error (.calcService e) :=
  delegated_failure_aborts (fun _ _ => .error "service unreachable") [⟨1, 2, "A"⟩]
    (by
      intro c hc
      rw [List.mem_singleton] at hc
      subst hc
      exact Or.inl rfl)
    ⟨⟨1, 2, "A"⟩, List.mem_singleton.mpr rfl, "service unreachable", rfl⟩

/-- C9: the result at index i depends only on the case at index i and
the batch-wide strategy — two successfully evaluated batches that agree
at index i and use the same strategy have equal i-th per-case results
and equal i-th graph-series entries. -/
theorem perCase_independence (s : Strategy) (cases1 cases2 : List Case)
    (br1 br2 : BatchResult) (i : ℕ)
    (h1 : evaluateAll s cases1 = .ok br1)
    (h2 : evaluateAll s cases2 = .ok br2)
    (hi1 : i < cases1.length) (hi2 : i < cases2.length)
    (heq : cases1[i] = cases2[i]) :
    ∃ (k1 : i < br1.results.length) (k2 : i < br2.results.length)
      (g1 : i < br1.graphData.length) (g2 : i < br2.graphData.length),
      br1.results[i] = br2.results[i] ∧ br1.graphData[i] = br2.graphData[i] := by
  obtain ⟨rs1, hec1, rfl⟩ := evaluateAll_ok_parts h1
  obtain ⟨rs2, hec2, rfl⟩ := evaluateAll_ok_parts h2
  have k1 : i < rs1.length := by rw [evalCases_length hec1]; exact hi1
  have k2 : i < rs2.length := by rw [evalCases_length hec2]; exact hi2
  have e1 := evalCases_get hec1 i hi1 k1
  have e2 := evalCases_get hec2 i hi2 k2
  rw [heq, e2] at e1
  have hr : rs1[i] = rs2[i] := by
    simpa using e1.symm
  exact ⟨k1, k2, by simpa using k1, by simpa using k2, hr, by simp [hr]⟩

/-- Witness for C9: two concrete batches sharing the case
{volume = 1, density = 100, norm = A} at index 0 but differing at
index 1. -/
theorem perCase_independence_witness :
    ∃ (k1 : 0 < (BatchResult.mk [⟨100, 20, .success⟩] [(20, "green")]).results.length)
      (k2 : 0 < (BatchResult.mk [⟨100, 20, .success⟩, ⟨3000, 600, .error⟩]
        [(20, "green"), (600, "red")]).results.length)
      (g1 : 0 < (BatchResult.mk [⟨100, 20, .success⟩] [(20, "green")]).graphData.length)
      (g2 : 0 < (BatchResult.mk [⟨100, 20, .success⟩, ⟨3000, 600, .error⟩]
        [(20, "green"), (600, "red")]).graphData.length),
      (BatchResult.mk [⟨100, 20, .success⟩] [(20, "green")]).results[0] =
        (BatchResult.mk [⟨100, 20, .success⟩, ⟨3000, 600, .error⟩]
          [(20, "green"), (600, "red")]).results[0] ∧
      (BatchResult.mk [⟨100, 20, .success⟩] [(20, "green")]).graphData[0] =
        (BatchResult.mk [⟨100, 20, .success⟩, ⟨3000, 600, .error⟩]
          [(20, "green"), (600, "red")]).graphData[0] :=
  perCase_independence .localFormula [⟨1, 100, "A"⟩] [⟨1, 100, "A"⟩, ⟨1, 3000, "A"⟩]
    ⟨[⟨100, 20, .success⟩], [(20, "green")]⟩
    ⟨[⟨100, 20, .success⟩, ⟨3000, 600, .error⟩], [(20, "green"), (600, "red")]⟩ 0
    (by norm_num [evaluateAll, evalCases, evalCase, maxMassFor, computeMass,
      statusOf, colorOf, NORM_A_MAX])
    (by norm_num [evaluateAll, evalCases, evalCase, maxMassFor, computeMass,
      statusOf, colorOf, NORM_A_MAX])
    (by norm_num) (by norm_num) rfl

/-- C10: for every case whose norm is A, B or C, the defensive
unrecognized-norm branch is unreachable (the lookup succeeds), the
unity-check divisor is strictly positive (500, 750 or 1000, hence
nonzero), and whenever the strategy yields any mass — including 0 —
the per-case evaluation completes successfully with
`unityCheck = mass / threshold * 100`. -/
theorem valid_norm_total (c : Case)
    (h : c.norm = "A" ∨ c.norm = "B" ∨ c.norm = "C") :
    ∃ t : ℚ, maxMassFor c.norm = .ok t ∧ 0 < t ∧
      (t = 500 ∨ t = 750 ∨ t = 1000) ∧
      ∀ (s : Strategy) (m : ℚ), computeMass s c.volume c.density = .ok m →
        evalCase s c = .ok ⟨m, m / t * 100, statusOf (m / t * 100)⟩ := by
  obtain ⟨t, ht, hpos, hval⟩ := maxMassFor_of_valid h
  refine ⟨t, ht, hpos, ?_, fun s m hm => by simp [evalCase, ht, hm]⟩
  rcases hval with h2 | h2 | h2 <;>
    simp [h2, NORM_A_MAX, NORM_B_MAX, NORM_C_MAX]

/-- Witness for C10: the concrete all-zero case
{volume = 0, density = 0, norm = A}, whose mass is 0. -/
theorem valid_norm_total_witness :
    ∃ t : ℚ, maxMassFor (Case.mk 0 0 "A").norm = .ok t ∧ 0 < t ∧
      (t = 500 ∨ t = 750 ∨ t = 1000) ∧
      ∀ (s : Strategy) (m : ℚ),
        computeMass s (Case.mk 0 0 "A").volume (Case.mk 0 0 "A").density = .ok m →
        evalCase s (Case.mk 0 0 "A") = .ok ⟨m, m / t * 100, statusOf (m / t * 100)⟩ :=
  valid_norm_total ⟨0, 0, "A"⟩ (Or.inl rfl)

end ViktorDemo
